import Mathlib

/-!
# Verification of the two-tier chat backend

A shallow embedding of the repository's two components:

* `src/backend/app.py` — the Gateway (namespace `Gateway`): validates the
  presence/truthiness of required fields and forwards the request to the
  Data Service, relaying the downstream JSON body and status code.
* `src/database/db_server.py` — the Data Service (namespace `DbServer`):
  owns the relational store (`messages`, `users`) and exposes the `/db/...`
  endpoints.
* `src/database/crud.py` — an unused SQLite variant (namespace `Crud`),
  modelled for comparison; it is imported by neither server.

HTTP request bodies are JSON objects, modelled as association lists of
flat JSON values.  Response bodies are full JSON trees.  The SQL tables are
lists of typed rows; the PostgreSQL `SERIAL` sequence backing
`messages.message_id` is the `nextId` counter of `MsgStore` (a sequence
value is consumed by every insert and never reissued, which is exactly
PostgreSQL's sequence semantics; the SQLite variant's `AUTOINCREMENT`
behaves the same way).  `CURRENT_TIMESTAMP` is an explicit `now : Nat`
parameter.
-/

/-- A flat JSON value as it appears in a request body. -/
inductive JValue where
  | str (s : String)
  | num (n : Int)
  | bool (b : Bool)
  | null
deriving Repr, DecidableEq

/-- Python truthiness of a JSON value, as tested by `not data[field]`:
empty strings, `0`, `False` and `None` are falsy. -/
def JValue.truthy : JValue → Bool
  | .str s => !s.isEmpty
  | .num n => decide (n ≠ 0)
  | .bool b => b
  | .null => false

/-- A JSON object body: an association list from field names to values
(the first binding for a key wins, as in a parsed JSON object). -/
abbrev JsonObj := List (String × JValue)

/-- A full JSON tree, for response bodies. -/
inductive Json where
  | str (s : String)
  | num (n : Int)
  | bool (b : Bool)
  | null
  | arr (xs : List Json)
  | obj (fields : List (String × Json))
deriving Repr

/-- An HTTP response: status code plus JSON body, as produced by
`jsonify(body), status`. -/
structure Resp where
  status : Nat
  body : Json
deriving Repr

/-- The `{"error": msg}` body shape used by every error return. -/
def errBody (msg : String) : Json := .obj [("error", .str msg)]

/-- A row of the `messages` table
(`message_id SERIAL PRIMARY KEY, sender_id, receiver_id, message_text, timestamp`). -/
structure Message where
  message_id : Int
  sender_id : String
  receiver_id : String
  message_text : String
  timestamp : Nat
deriving Repr, DecidableEq

/-- The `messages` table plus the state of the `SERIAL` sequence that
generates `message_id` (`nextId` = the id the next insert will receive). -/
structure MsgStore where
  rows : List Message
  nextId : Int
deriving Repr, DecidableEq

/-- A freshly initialized store: no rows, sequence at 1 (PostgreSQL
sequences start at 1). -/
def initStore : MsgStore := ⟨[], 1⟩

/-- A row of the `users` table (`user_id TEXT PRIMARY KEY, password TEXT`). -/
structure UserRow where
  user_id : String
  password : String
deriving Repr, DecidableEq

/-- The whole persistent state owned by the Data Service. -/
structure DbState where
  users : List UserRow
  msgs : MsgStore
deriving Repr, DecidableEq

/-- Extract a string field from a request body.  The handlers bind TEXT
columns from these values; the claims pin the relevant lookups to `.str`
values by hypothesis, so the default for absent/non-string values is
never exercised there. -/
def getStr (data : JsonObj) (k : String) : String :=
  match data.lookup k with
  | some (.str s) => s
  | _ => ""

/-- Extract an integer field (the `message_id` comparisons against the
integer column).  The claims pin the lookup to a `.num` value by
hypothesis. -/
def getNum (data : JsonObj) (k : String) : Int :=
  match data.lookup k with
  | some (.num n) => n
  | _ => 0

namespace DbServer

/-- db_server.py `parse_request_data`, lines 99–107: the set-difference
presence check `required_keys - data.keys()`.  Only key *presence* is
tested; a key bound to an empty string passes.  The Python set iterates in
unspecified order; we fix the order of the `required` list. -/
def missingKeys (data : JsonObj) (required : List String) : List String :=
  required.filter (fun k => (data.lookup k).isNone)

/-- The error half of `parse_request_data`: `None` on success, otherwise
the message naming every missing field. -/
def parseError (data : JsonObj) (required : List String) : Option String :=
  let missing := missingKeys data required
  if missing.isEmpty then none
  else some ("Missing fields: " ++ String.intercalate ", " missing)

/-- db_server.py `register_user`, lines 112–147: validate presence of
`user_id`/`password`, `SELECT` for an existing row, reject duplicates with
400, otherwise `INSERT` and answer 201. -/
def register_user (data : JsonObj) (users : List UserRow) : List UserRow × Resp :=
  match parseError data ["user_id", "password"] with
  | some err => (users, ⟨400, errBody err⟩)
  | none =>
    let user_id := getStr data "user_id"
    let password := getStr data "password"
    if users.any (fun u => decide (u.user_id = user_id)) then
      (users, ⟨400, errBody "User already exists"⟩)
    else
      (users ++ [⟨user_id, password⟩],
       ⟨201, .obj [("status", .str "success"), ("user_id", .str user_id)]⟩)

/-- db_server.py `login_user`, lines 152–184: `SELECT password WHERE
user_id = %s`, `fetchone` (the first matching row); absent user answers
`{"user_id": false, "password": false}` with 200, present user answers
`{"user_id": true, "password": stored == given}` with 200. -/
def login_user (data : JsonObj) (users : List UserRow) : Resp :=
  match parseError data ["user_id", "password"] with
  | some err => ⟨400, errBody err⟩
  | none =>
    let user_id := getStr data "user_id"
    let password := getStr data "password"
    match users.find? (fun u => decide (u.user_id = user_id)) with
    | none => ⟨200, .obj [("user_id", .bool false), ("password", .bool false)]⟩
    | some row =>
      ⟨200, .obj [("user_id", .bool true),
                  ("password", .bool (decide (row.password = password)))]⟩

/-- db_server.py `insert_message`, lines 189–214: an inline set-difference
presence check (again ignoring emptiness of the values), then
`INSERT ... RETURNING message_id` — the row takes the next sequence value
and a server-assigned timestamp, and the handler answers 201. -/
def insert_message (data : JsonObj) (s : MsgStore) (now : Nat) : MsgStore × Resp :=
  let missing := missingKeys data ["sender_id", "receiver_id", "message_text"]
  if missing.isEmpty then
    let m : Message :=
      ⟨s.nextId, getStr data "sender_id", getStr data "receiver_id",
       getStr data "message_text", now⟩
    (⟨s.rows ++ [m], s.nextId + 1⟩,
     ⟨201, .obj [("message_id", .num s.nextId), ("status", .str "success")]⟩)
  else
    (s, ⟨400, errBody ("Missing fields: " ++ String.intercalate ", " missing)⟩)

/-- The symmetric conversation condition of the fetch `WHERE` clause:
`(sender_id = a AND receiver_id = b) OR (sender_id = b AND receiver_id = a)`. -/
def convMatch (a b : String) (m : Message) : Bool :=
  decide ((m.sender_id = a ∧ m.receiver_id = b) ∨ (m.sender_id = b ∧ m.receiver_id = a))

/-- `ORDER BY timestamp ASC` comparison. -/
def tsLe (m1 m2 : Message) : Bool := decide (m1.timestamp ≤ m2.timestamp)

/-- The rows produced by the conversation query of db_server.py
`fetch_messages`, lines 233–238 (and the identical query of crud.py
lines 64–70): filter on the symmetric condition, order by timestamp. -/
def fetch_rows (s : MsgStore) (a b : String) : List Message :=
  (s.rows.filter (convMatch a b)).mergeSort tsLe

/-- The JSON row shape built by the fetch handlers.  The real code
serializes the timestamp via `isoformat()`; the serialization of the
timestamp value is kept abstract as its number. -/
def msgJson (m : Message) : Json :=
  .obj [("message_id", .num m.message_id), ("sender_id", .str m.sender_id),
        ("receiver_id", .str m.receiver_id), ("message_text", .str m.message_text),
        ("timestamp", .num (Int.ofNat m.timestamp))]

/-- `request.args.get` yields `None` for an absent query parameter; the
guard `not sender_id` is falsy for both `None` and the empty string. -/
def paramTruthy : Option String → Bool
  | none => false
  | some s => !s.isEmpty

/-- db_server.py `fetch_messages`, lines 223–256: 400 when either query
parameter is absent or empty, otherwise 200 with the (possibly empty)
ordered message list. -/
def fetch_messages (sender_id receiver_id : Option String) (s : MsgStore) : Resp :=
  if !paramTruthy sender_id || !paramTruthy receiver_id then
    ⟨400, errBody "sender_id and receiver_id are required"⟩
  else
    ⟨200, .obj [("messages",
                 .arr ((fetch_rows s (sender_id.getD "") (receiver_id.getD "")).map msgJson)),
                ("status", .str "success")]⟩

/-- The row condition of the update/delete statements:
`message_id = %s AND sender_id = %s`. -/
def updHit (mid : Int) (sid : String) (m : Message) : Bool :=
  decide (m.message_id = mid ∧ m.sender_id = sid)

/-- db_server.py `update_message`, lines 265–304: validate presence of
`message_id`/`sender_id`/`message_text`, run
`UPDATE messages SET message_text = %s WHERE message_id = %s AND sender_id = %s`;
`rowcount == 0` answers the opaque 404, otherwise commit and answer 200
with the request's `message_id` echoed as `updated_id`. -/
def update_message (data : JsonObj) (s : MsgStore) : MsgStore × Resp :=
  match parseError data ["message_id", "sender_id", "message_text"] with
  | some err => (s, ⟨400, errBody err⟩)
  | none =>
    let mid := getNum data "message_id"
    let sid := getStr data "sender_id"
    let newText := getStr data "message_text"
    if s.rows.any (updHit mid sid) then
      (⟨s.rows.map (fun m => if updHit mid sid m then { m with message_text := newText } else m),
        s.nextId⟩,
       ⟨200, .obj [("status", .str "success"), ("updated_id", .num mid)]⟩)
    else
      (s, ⟨404, errBody "Message not found or sender mismatch"⟩)

/-- db_server.py `delete_message`, lines 309–345: validate presence of
`message_id`/`sender_id`, run
`DELETE FROM messages WHERE message_id = %s AND sender_id = %s`;
`rowcount == 0` answers the opaque 404, otherwise 200. -/
def delete_message (data : JsonObj) (s : MsgStore) : MsgStore × Resp :=
  match parseError data ["message_id", "sender_id"] with
  | some err => (s, ⟨400, errBody err⟩)
  | none =>
    let mid := getNum data "message_id"
    let sid := getStr data "sender_id"
    if s.rows.any (updHit mid sid) then
      (⟨s.rows.filter (fun m => !updHit mid sid m), s.nextId⟩,
       ⟨200, .obj [("status", .str "success"), ("deleted_id", .num mid)]⟩)
    else
      (s, ⟨404, errBody "Message not found or sender mismatch"⟩)

/-- db_server.py `db_health_check`, lines 350–361 (healthy path):
`SELECT COUNT(*) FROM messages`. -/
def db_health_check (s : MsgStore) : Resp :=
  ⟨200, .obj [("status", .str "healthy"), ("service", .str "Database Server"),
              ("message_count", .num (Int.ofNat s.rows.length))]⟩

/-- db_server.py `test_connection`, lines 364–392 (healthy path);
the reported `version()` string is kept abstract. -/
def test_connection (s : MsgStore) : Resp :=
  ⟨200, .obj [("status", .str "success"), ("database", .str "PostgreSQL"),
              ("version", .str "PostgreSQL"),
              ("message_count", .num (Int.ofNat s.rows.length))]⟩

/-- The route table of db_server.py: every `@app.route` decorator,
as (method, path). -/
def dbRoutes : List (String × String) :=
  [("POST", "/db/register"), ("POST", "/db/login"), ("POST", "/db/insert"),
   ("GET", "/db/fetch"), ("PUT", "/db/update"), ("DELETE", "/db/delete"),
   ("GET", "/db/health"), ("GET", "/db/test-connection")]

/-- What an HTTP client observes from the Data Service: a JSON response
from one of the handlers, or a non-JSON body — Flask's built-in HTML 404
page for a request that matches no route. -/
inductive DownResp where
  | json (r : Resp)
  | nonJson (status : Nat)
deriving Repr

/-- Flask's dispatch over the route table of db_server.py: each known
(method, path) runs its handler; anything else gets the framework's
HTML (non-JSON) 404 page and leaves the store untouched. -/
def dbDispatch (method path : String) (body : JsonObj)
    (qsender qreceiver : Option String) (now : Nat) (st : DbState) :
    DbState × DownResp :=
  if method = "POST" ∧ path = "/db/register" then
    let (users2, r) := register_user body st.users
    ({ st with users := users2 }, .json r)
  else if method = "POST" ∧ path = "/db/login" then
    (st, .json (login_user body st.users))
  else if method = "POST" ∧ path = "/db/insert" then
    let (msgs2, r) := insert_message body st.msgs now
    ({ st with msgs := msgs2 }, .json r)
  else if method = "GET" ∧ path = "/db/fetch" then
    (st, .json (fetch_messages qsender qreceiver st.msgs))
  else if method = "PUT" ∧ path = "/db/update" then
    let (msgs2, r) := update_message body st.msgs
    ({ st with msgs := msgs2 }, .json r)
  else if method = "DELETE" ∧ path = "/db/delete" then
    let (msgs2, r) := delete_message body st.msgs
    ({ st with msgs := msgs2 }, .json r)
  else if method = "GET" ∧ path = "/db/health" then
    (st, .json (db_health_check st.msgs))
  else if method = "GET" ∧ path = "/db/test-connection" then
    (st, .json (test_connection st.msgs))
  else
    (st, .nonJson 404)

end DbServer

namespace Crud

/-- crud.py `fetch_messages`, lines 58–91: the unused SQLite variant.
Same symmetric ordered query, but an empty result answers 404
`{"error": "No messages found"}` instead of a 200 empty list.  This module
is imported by neither server; it is modelled only to contrast the two
variants the spec discusses. -/
def fetch_messages (sender_id receiver_id : String) (s : MsgStore) : Resp :=
  let msgs := DbServer.fetch_rows s sender_id receiver_id
  if msgs.isEmpty then ⟨404, errBody "No messages found"⟩
  else ⟨200, .obj [("messages", .arr (msgs.map DbServer.msgJson)),
                   ("status", .str "success")]⟩

end Crud

namespace Gateway

/-- app.py line 19. -/
def REQUIRED_FIELDS : List String := ["sender_id", "receiver_id", "message_text"]

/-- The truth test of app.py's guards, `field in data and data[field]`:
present and truthy (so non-empty for strings). -/
def gwTruthy (data : JsonObj) (f : String) : Bool :=
  match data.lookup f with
  | none => false
  | some v => v.truthy

/-- The validation loop of app.py (lines 30–33 and 82–84): returns the
first field with `field not in data or not data[field]`, in list order
(the loop returns at the first offender). -/
def firstInvalid (required : List String) (data : JsonObj) : Option String :=
  required.find? (fun f => !gwTruthy data f)

/-- The Gateway's validation-error body, `{"error": "'field' is required"}`. -/
def reqErr (f : String) : Json := errBody ("'" ++ f ++ "' is required")

/-- What a Gateway handler decides before any network traffic: reject
locally, or forward (method, path, body) to the Data Service. -/
inductive Step where
  | reject (status : Nat) (body : Json)
  | forward (method path : String) (body : JsonObj)
deriving Repr

/-- app.py `send_message`, lines 21–36, up to the outbound call: validate
`REQUIRED_FIELDS`, then `requests.post(f"{DB_SERVER}/db/insert", json=data)`. -/
def send_message_step (data : JsonObj) : Step :=
  match firstInvalid REQUIRED_FIELDS data with
  | some f => .reject 400 (reqErr f)
  | none => .forward "POST" "/db/insert" data

/-- app.py `edit_message`, lines 75–94, up to the outbound call: validate
`message_id`/`sender_id`/`message_text`, then the (redundant, already
subsumed) second `message_id` check, then
`requests.put(f"{DB_SERVER}/db/edit", json=data)` — note the path. -/
def edit_message_step (data : JsonObj) : Step :=
  match firstInvalid ["message_id", "sender_id", "message_text"] data with
  | some f => .reject 400 (reqErr f)
  | none =>
    if !gwTruthy data "message_id" then .reject 400 (reqErr "message_id")
    else .forward "PUT" "/db/edit" data

/-- app.py `delete_message`, lines 103–114, up to the outbound call: only
`message_id` is checked before
`requests.delete(f"{DB_SERVER}/db/delete", json=data)`. -/
def delete_message_step (data : JsonObj) : Step :=
  if !gwTruthy data "message_id" then .reject 400 (reqErr "message_id")
  else .forward "DELETE" "/db/delete" data

/-- The Gateway's relay of a downstream response
(`return jsonify(response.json()), response.status_code`): a JSON body and
its status code pass through unchanged.  When the downstream body is not
JSON, `response.json()` raises `requests.exceptions.JSONDecodeError`; in
the requests library (2.27 and later) that exception subclasses
`RequestException`, so it is caught by the handler's first `except` clause
(app.py lines 39–41, 96–98, 116–118), which answers 503
`{"error": "Database service unavailable"}` — the downstream status code
and body are discarded. -/
def relay (d : DbState × DbServer.DownResp) : DbState × Resp :=
  match d with
  | (st, .json r) => (st, r)
  | (st, .nonJson _) => (st, ⟨503, errBody "Database service unavailable"⟩)

/-- Run a Gateway step against the Data Service: a reject never reaches
the downstream; a forward dispatches and relays. -/
def runStep (step : Step) (now : Nat) (st : DbState) : DbState × Resp :=
  match step with
  | .reject status body => (st, ⟨status, body⟩)
  | .forward method path body =>
      relay (DbServer.dbDispatch method path body none none now st)

/-- app.py `send_message`, the whole pipeline. -/
def send_message (data : JsonObj) (now : Nat) (st : DbState) : DbState × Resp :=
  runStep (send_message_step data) now st

/-- app.py `edit_message`, the whole pipeline. -/
def edit_message (data : JsonObj) (now : Nat) (st : DbState) : DbState × Resp :=
  runStep (edit_message_step data) now st

/-- app.py `delete_message`, the whole pipeline. -/
def delete_message (data : JsonObj) (now : Nat) (st : DbState) : DbState × Resp :=
  runStep (delete_message_step data) now st

end Gateway

/-- A logical operation against the message store, for the id-freshness
claim: a field-valid insert payload, or a delete request. -/
inductive DbOp where
  | insertOp (sender receiver text : String) (now : Nat)
  | deleteOp (mid : Int) (sender : String)
deriving Repr

/-- A field-valid insert body. -/
def insertPayload (sn rc tx : String) : JsonObj :=
  [("sender_id", .str sn), ("receiver_id", .str rc), ("message_text", .str tx)]

/-- A field-valid delete body. -/
def deletePayload (mid : Int) (sn : String) : JsonObj :=
  [("message_id", .num mid), ("sender_id", .str sn)]

/-- The `message_id` reported by an insert response body, when present. -/
def respInsertId (r : Resp) : Option Int :=
  match r.body with
  | .obj fs =>
    match fs.lookup "message_id" with
    | some (.num n) => some n
    | _ => none
  | _ => none

/-- Run one operation through the corresponding db_server.py handler,
recording the id a successful insert reports. -/
def stepOp (s : MsgStore) : DbOp → MsgStore × Option Int
  | .insertOp sn rc tx now =>
    let (s2, r) := DbServer.insert_message (insertPayload sn rc tx) s now
    (s2, respInsertId r)
  | .deleteOp mid sn =>
    let (s2, _) := DbServer.delete_message (deletePayload mid sn) s
    (s2, none)

/-- Run a sequence of operations, collecting the insert-reported ids in
order. -/
def runOps (s : MsgStore) : List DbOp → List Int
  | [] => []
  | op :: rest =>
    let (s2, r) := stepOp s op
    r.toList ++ runOps s2 rest

/-! ## Helper lemmas -/

/-- A mapped list is pointwise related to its source. -/
theorem forall2_map_self {α : Type} (R : α → α → Prop) (f : α → α) (l : List α)
    (h : ∀ a ∈ l, R a (f a)) : List.Forall₂ R l (l.map f) := by
  induction l with
  | nil => simp
  | cons x xs ih =>
    exact List.Forall₂.cons (h x (by simp)) (ih fun a ha => h a (by simp [ha]))

/-- The delete handler never touches the id sequence. -/
theorem delete_message_nextId (data : JsonObj) (s : MsgStore) :
    ((DbServer.delete_message data s).1).nextId = s.nextId := by
  unfold DbServer.delete_message
  split
  · rfl
  · dsimp only
    split <;> rfl

/-- Every id reported along a run is at least the sequence value at the
start of the run. -/
theorem runOps_lb (ops : List DbOp) :
    ∀ (s : MsgStore), ∀ x ∈ runOps s ops, s.nextId ≤ x := by
  induction ops with
  | nil => intro s x hx; simp [runOps] at hx
  | cons op rest ih =>
    intro s x hx
    cases op with
    | insertOp sn rc tx now =>
      rw [show runOps s (.insertOp sn rc tx now :: rest) =
            s.nextId :: runOps ⟨s.rows ++ [⟨s.nextId, sn, rc, tx, now⟩], s.nextId + 1⟩ rest
          from rfl] at hx
      rcases List.mem_cons.mp hx with h | h
      · omega
      · have := ih _ x h
        simp only at this
        omega
    | deleteOp mid sn =>
      rw [show runOps s (.deleteOp mid sn :: rest) =
            runOps (DbServer.delete_message (deletePayload mid sn) s).1 rest from rfl] at hx
      have := ih _ x hx
      rwa [delete_message_nextId] at this

/-- The ids reported along a run are strictly increasing. -/
theorem runOps_pairwise (ops : List DbOp) :
    ∀ (s : MsgStore), (runOps s ops).Pairwise (· < ·) := by
  induction ops with
  | nil => intro s; simp [runOps]
  | cons op rest ih =>
    intro s
    cases op with
    | insertOp sn rc tx now =>
      rw [show runOps s (.insertOp sn rc tx now :: rest) =
            s.nextId :: runOps ⟨s.rows ++ [⟨s.nextId, sn, rc, tx, now⟩], s.nextId + 1⟩ rest
          from rfl]
      refine List.Pairwise.cons ?_ (ih _)
      intro x hx
      have := runOps_lb rest _ x hx
      simp only at this
      omega
    | deleteOp mid sn =>
      rw [show runOps s (.deleteOp mid sn :: rest) =
            runOps (DbServer.delete_message (deletePayload mid sn) s).1 rest from rfl]
      exact ih _

/-- The symmetric conversation condition is symmetric in the two parties. -/
theorem convMatch_comm (a b : String) (m : Message) :
    DbServer.convMatch a b m = DbServer.convMatch b a m := by
  unfold DbServer.convMatch
  exact decide_eq_decide.mpr (by tauto)

/-- The conversation query result is invariant under swapping the parties. -/
theorem fetch_rows_comm (s : MsgStore) (a b : String) :
    DbServer.fetch_rows s a b = DbServer.fetch_rows s b a := by
  unfold DbServer.fetch_rows
  congr 1
  exact List.filter_congr (fun m _ => convMatch_comm a b m)

/-- Membership in the conversation query result. -/
theorem mem_fetch_rows (s : MsgStore) (a b : String) (m : Message) :
    m ∈ DbServer.fetch_rows s a b ↔ m ∈ s.rows ∧
      ((m.sender_id = a ∧ m.receiver_id = b) ∨ (m.sender_id = b ∧ m.receiver_id = a)) := by
  unfold DbServer.fetch_rows
  rw [List.mem_mergeSort, List.mem_filter]
  simp [DbServer.convMatch]

/-- The conversation query result is ordered by timestamp ascending. -/
theorem fetch_rows_sorted (s : MsgStore) (a b : String) :
    (DbServer.fetch_rows s a b).Pairwise (fun m1 m2 => m1.timestamp ≤ m2.timestamp) := by
  unfold DbServer.fetch_rows
  refine (List.sorted_mergeSort ?_ ?_ (s.rows.filter (DbServer.convMatch a b))).imp ?_
  · intro x y z hxy hyz
    simp only [DbServer.tsLe, decide_eq_true_eq] at *
    omega
  · intro x y
    simp only [DbServer.tsLe, Bool.or_eq_true, decide_eq_true_eq]
    omega
  · intro m1 m2 h
    simpa [DbServer.tsLe] using h

/-! ## Claim theorems -/

/-- C7: across every sequence of valid insert and delete operations run
through the db_server.py handlers from a fresh store, the `message_id`
reported by each successful insert is strictly greater than every id
reported by any earlier insert; in particular the reported ids are
pairwise distinct, so no id is ever assigned again — deleted or not. -/
theorem c7_insert_ids_strictly_increasing (ops : List DbOp) :
    (runOps initStore ops).Pairwise (· < ·) ∧
    (runOps initStore ops).Pairwise (· ≠ ·) := by
  refine ⟨runOps_pairwise ops initStore, ?_⟩
  exact (runOps_pairwise ops initStore).imp (fun h => Int.ne_of_lt h)

/-- C6: for every store and every pair of identities, the conversation
query returns the same list for `fetch(A,B)` and `fetch(B,A)`; its
members are exactly the stored messages with `(sender=A, receiver=B)` or
`(sender=B, receiver=A)`; it is ordered by timestamp ascending; and the
whole fetch handler (body and status included) is symmetric in its two
parameters. -/
theorem c6_fetch_symmetric_sorted (a b : String) (s : MsgStore) :
    DbServer.fetch_rows s a b = DbServer.fetch_rows s b a ∧
    (∀ m : Message, m ∈ DbServer.fetch_rows s a b ↔ m ∈ s.rows ∧
      ((m.sender_id = a ∧ m.receiver_id = b) ∨ (m.sender_id = b ∧ m.receiver_id = a))) ∧
    (DbServer.fetch_rows s a b).Pairwise (fun m1 m2 => m1.timestamp ≤ m2.timestamp) ∧
    DbServer.fetch_messages (some a) (some b) s = DbServer.fetch_messages (some b) (some a) s := by
  refine ⟨fetch_rows_comm s a b, mem_fetch_rows s a b, fetch_rows_sorted s a b, ?_⟩
  unfold DbServer.fetch_messages
  simp only [Option.getD_some]
  rw [Bool.or_comm, fetch_rows_comm]

/-- C2: an update request whose `message_id` and `sender_id` match a
stored row rewrites exactly the matching rows' `message_text`, leaving
every row's `message_id`, `sender_id`, `receiver_id` and `timestamp` (and
every non-matching row entirely, and the id sequence) unchanged, and
answers 200 with the id echoed; when no row matches (unknown id or wrong
sender) the store is returned untouched with the opaque 404. -/
theorem c2_update_frame_and_ownership (data : JsonObj) (s : MsgStore)
    (mid : Int) (sid txt : String)
    (hm : data.lookup "message_id" = some (.num mid))
    (hs : data.lookup "sender_id" = some (.str sid))
    (ht : data.lookup "message_text" = some (.str txt)) :
    (s.rows.any (DbServer.updHit mid sid) = true →
        List.Forall₂ (fun m m2 =>
          m2.message_id = m.message_id ∧ m2.sender_id = m.sender_id ∧
          m2.receiver_id = m.receiver_id ∧ m2.timestamp = m.timestamp ∧
          (DbServer.updHit mid sid m = false → m2 = m) ∧
          (DbServer.updHit mid sid m = true → m2.message_text = txt))
          s.rows (DbServer.update_message data s).1.rows ∧
        (DbServer.update_message data s).1.nextId = s.nextId ∧
        (DbServer.update_message data s).2 =
          ⟨200, .obj [("status", .str "success"), ("updated_id", .num mid)]⟩) ∧
    (s.rows.any (DbServer.updHit mid sid) = false →
        DbServer.update_message data s =
          (s, ⟨404, errBody "Message not found or sender mismatch"⟩)) := by
  have hpe : DbServer.parseError data ["message_id", "sender_id", "message_text"] = none := by
    simp [DbServer.parseError, DbServer.missingKeys, hm, hs, ht]
  have hupd : DbServer.update_message data s =
      (if s.rows.any (DbServer.updHit mid sid) then
        (⟨s.rows.map (fun m =>
            if DbServer.updHit mid sid m then { m with message_text := txt } else m), s.nextId⟩,
         ⟨200, .obj [("status", .str "success"), ("updated_id", .num mid)]⟩)
      else (s, ⟨404, errBody "Message not found or sender mismatch"⟩)) := by
    unfold DbServer.update_message
    rw [hpe]
    simp [getNum, getStr, hm, hs, ht]
  constructor
  · intro hany
    rw [hupd, if_pos hany]
    refine ⟨?_, rfl, rfl⟩
    refine forall2_map_self _ _ _ ?_
    intro m hmem
    by_cases hh : DbServer.updHit mid sid m = true
    · simp [hh]
    · simp [hh]
  · intro hnone
    rw [hupd, if_neg (by simp [hnone])]

/-- Witness for C2 at a concrete store and request. -/
theorem c2_witness :
    ([(⟨1, "alice", "bob", "hi", 5⟩ : Message)].any (DbServer.updHit 1 "alice") = true) ∧
    (DbServer.update_message
        [("message_id", JValue.num 1), ("sender_id", JValue.str "alice"),
         ("message_text", JValue.str "edited")]
        ⟨[⟨1, "alice", "bob", "hi", 5⟩], 2⟩).2 =
      ⟨200, .obj [("status", .str "success"), ("updated_id", .num 1)]⟩ :=
  ⟨rfl,
   ((c2_update_frame_and_ownership
      [("message_id", JValue.num 1), ("sender_id", JValue.str "alice"),
       ("message_text", JValue.str "edited")]
      ⟨[⟨1, "alice", "bob", "hi", 5⟩], 2⟩ 1 "alice" "edited" rfl rfl rfl).1 rfl).2.2⟩

/-- C3: registering a fresh `user_id` twice through the db_server.py
handler: the first request answers 201 with the new `user_id` and appends
the row; the second answers 400 "User already exists" and leaves the
store unchanged, which therefore holds exactly one row for that
`user_id`, carrying the first password. -/
theorem c3_duplicate_registration (u p1 p2 : String) (users : List UserRow)
    (hfresh : ∀ r ∈ users, r.user_id ≠ u) :
    (DbServer.register_user [("user_id", JValue.str u), ("password", JValue.str p1)] users).2 =
      ⟨201, .obj [("status", .str "success"), ("user_id", .str u)]⟩ ∧
    (DbServer.register_user [("user_id", JValue.str u), ("password", JValue.str p1)] users).1 =
      users ++ [⟨u, p1⟩] ∧
    DbServer.register_user [("user_id", JValue.str u), ("password", JValue.str p2)]
        (DbServer.register_user [("user_id", JValue.str u), ("password", JValue.str p1)] users).1 =
      (users ++ [⟨u, p1⟩], ⟨400, errBody "User already exists"⟩) ∧
    (users ++ [(⟨u, p1⟩ : UserRow)]).filter (fun r => decide (r.user_id = u)) =
      [(⟨u, p1⟩ : UserRow)] := by
  have hany : users.any (fun r => decide (r.user_id = u)) = false := by
    simp only [List.any_eq_false, decide_eq_true_eq]
    exact hfresh
  have e1 : DbServer.register_user [("user_id", JValue.str u), ("password", JValue.str p1)] users =
      (if users.any (fun r => decide (r.user_id = u)) then
        (users, ⟨400, errBody "User already exists"⟩)
      else
        (users ++ [⟨u, p1⟩], ⟨201, .obj [("status", .str "success"), ("user_id", .str u)]⟩)) := rfl
  have h1 : DbServer.register_user [("user_id", JValue.str u), ("password", JValue.str p1)] users =
      (users ++ [⟨u, p1⟩], ⟨201, .obj [("status", .str "success"), ("user_id", .str u)]⟩) := by
    rw [e1, hany]
    rfl
  have hany2 : ((users ++ [(⟨u, p1⟩ : UserRow)]).any (fun r => decide (r.user_id = u))) = true := by
    simp
  have e2 : DbServer.register_user [("user_id", JValue.str u), ("password", JValue.str p2)]
      (users ++ [(⟨u, p1⟩ : UserRow)]) =
      (if (users ++ [(⟨u, p1⟩ : UserRow)]).any (fun r => decide (r.user_id = u)) then
        ((users ++ [⟨u, p1⟩]), ⟨400, errBody "User already exists"⟩)
      else
        ((users ++ [⟨u, p1⟩]) ++ [⟨u, p2⟩],
         ⟨201, .obj [("status", .str "success"), ("user_id", .str u)]⟩)) := rfl
  have h2 : DbServer.register_user [("user_id", JValue.str u), ("password", JValue.str p2)]
      (users ++ [(⟨u, p1⟩ : UserRow)]) =
      (users ++ [⟨u, p1⟩], ⟨400, errBody "User already exists"⟩) := by
    rw [e2, hany2]
    rfl
  refine ⟨by rw [h1], by rw [h1], by rw [h1]; exact h2, ?_⟩
  rw [List.filter_append]
  have hnil : users.filter (fun r => decide (r.user_id = u)) = [] := by
    simp only [List.filter_eq_nil_iff, decide_eq_true_eq]
    exact hfresh
  rw [hnil]
  simp

/-- Witness for C3 at a concrete fresh store. -/
theorem c3_witness :
    (DbServer.register_user [("user_id", JValue.str "alice"), ("password", JValue.str "x")] []).2 =
      ⟨201, .obj [("status", .str "success"), ("user_id", .str "alice")]⟩ ∧
    DbServer.register_user [("user_id", JValue.str "alice"), ("password", JValue.str "y")]
        (DbServer.register_user [("user_id", JValue.str "alice"), ("password", JValue.str "x")] []).1 =
      ([⟨"alice", "x"⟩], ⟨400, errBody "User already exists"⟩) :=
  ⟨(c3_duplicate_registration "alice" "x" "y" [] (by simp)).1,
   (c3_duplicate_registration "alice" "x" "y" [] (by simp)).2.2.1⟩

/-- C5: when both query parameters are present and non-empty and no stored
message matches the symmetric conversation condition, the db_server.py
fetch handler answers 200 with an empty `messages` list, not an error. -/
theorem c5_empty_fetch_success (a b : String) (s : MsgStore)
    (ha : a ≠ "") (hb : b ≠ "")
    (hempty : s.rows.filter (DbServer.convMatch a b) = []) :
    DbServer.fetch_messages (some a) (some b) s =
      ⟨200, .obj [("messages", .arr []), ("status", .str "success")]⟩ := by
  have ha2 : DbServer.paramTruthy (some a) = true := by
    unfold DbServer.paramTruthy
    rw [Bool.not_eq_true']
    rw [Bool.eq_false_iff]
    intro h
    exact ha ((String.isEmpty_iff a).mp h)
  have hb2 : DbServer.paramTruthy (some b) = true := by
    unfold DbServer.paramTruthy
    rw [Bool.not_eq_true']
    rw [Bool.eq_false_iff]
    intro h
    exact hb ((String.isEmpty_iff b).mp h)
  unfold DbServer.fetch_messages
  rw [ha2, hb2]
  simp [DbServer.fetch_rows, hempty]

/-- Witness for C5 at a concrete empty store. -/
theorem c5_witness :
    ("alice" : String) ≠ "" ∧
    DbServer.fetch_messages (some "alice") (some "bob") initStore =
      ⟨200, .obj [("messages", .arr []), ("status", .str "success")]⟩ :=
  ⟨by decide, c5_empty_fetch_success "alice" "bob" initStore (by decide) (by decide) rfl⟩

/-- C4 counterexample: a delete request carrying `message_id` but no
`sender_id` at all is *forwarded* by the Gateway's delete handler, not
rejected with a 400 validation error. -/
theorem c4_counterexample :
    Gateway.delete_message_step [("message_id", JValue.str "7")] =
      Gateway.Step.forward "DELETE" "/db/delete" [("message_id", JValue.str "7")] := rfl

/-- C4 (amended): the Gateway's delete handler validates only
`message_id` — missing or empty `message_id` is rejected with 400 and not
forwarded, while any request with a truthy `message_id` is forwarded
regardless of `sender_id`; the `sender_id` requirement is enforced only
by the Data Service's delete handler, which answers 400 naming the
missing fields. -/
theorem c4_gateway_delete_validation (data : JsonObj) (s : MsgStore) :
    (Gateway.gwTruthy data "message_id" = false →
        Gateway.delete_message_step data = .reject 400 (Gateway.reqErr "message_id")) ∧
    (Gateway.gwTruthy data "message_id" = true →
        Gateway.delete_message_step data = .forward "DELETE" "/db/delete" data) ∧
    (DbServer.missingKeys data ["message_id", "sender_id"] ≠ [] →
        DbServer.delete_message data s =
          (s, ⟨400, errBody ("Missing fields: " ++ String.intercalate ", "
            (DbServer.missingKeys data ["message_id", "sender_id"]))⟩)) := by
  refine ⟨?_, ?_, ?_⟩
  · intro h
    unfold Gateway.delete_message_step
    rw [h]
    rfl
  · intro h
    unfold Gateway.delete_message_step
    rw [h]
    rfl
  · intro h
    rcases hmk : DbServer.missingKeys data ["message_id", "sender_id"] with _ | ⟨k, ks⟩
    · exact absurd hmk h
    · have hpe : DbServer.parseError data ["message_id", "sender_id"] =
          some ("Missing fields: " ++ String.intercalate ", " (k :: ks)) := by
        unfold DbServer.parseError
        dsimp only
        rw [hmk]
        rfl
      unfold DbServer.delete_message
      rw [hpe]

/-- Witness for C4 (amended) at concrete requests. -/
theorem c4_witness :
    Gateway.delete_message_step [] = .reject 400 (Gateway.reqErr "message_id") ∧
    DbServer.delete_message [("message_id", JValue.num 3)] initStore =
      (initStore, ⟨400, errBody "Missing fields: sender_id"⟩) :=
  ⟨(c4_gateway_delete_validation [] initStore).1 rfl,
   (c4_gateway_delete_validation [("message_id", JValue.num 3)] initStore).2.2 (by decide)⟩

/-- C8 counterexample: a send request whose `message_text` is present but
empty passes the Data Service's set-difference validation — the insert
handler answers 201 (storing the empty text), not a 400 validation
error. -/
theorem c8_counterexample :
    (DbServer.insert_message [("sender_id", JValue.str "a"), ("receiver_id", JValue.str "b"),
        ("message_text", JValue.str "")] initStore 0).2.status = 201 ∧
    decide ((DbServer.insert_message [("sender_id", JValue.str "a"),
        ("receiver_id", JValue.str "b"),
        ("message_text", JValue.str "")] initStore 0).2.status = 400) = false :=
  ⟨rfl, rfl⟩

/-- C8 (amended): the Gateway rejects a request with any required field
missing *or empty* with 400 naming an offending field, and forwards
exactly when every required field is present and truthy; the Data Service
independently rejects only *missing* fields with 400 naming them — a
field that is present but empty passes its validation and the insert
proceeds with 201. -/
theorem c8_validation_amended (data : JsonObj) (s : MsgStore) (now : Nat) (f : String) :
    (f ∈ Gateway.REQUIRED_FIELDS → Gateway.gwTruthy data f = false →
      ∃ g, Gateway.firstInvalid Gateway.REQUIRED_FIELDS data = some g ∧
        Gateway.send_message_step data = .reject 400 (Gateway.reqErr g)) ∧
    ((∀ g ∈ Gateway.REQUIRED_FIELDS, Gateway.gwTruthy data g = true) →
      Gateway.send_message_step data = .forward "POST" "/db/insert" data) ∧
    (DbServer.missingKeys data ["sender_id", "receiver_id", "message_text"] ≠ [] →
      DbServer.insert_message data s now =
        (s, ⟨400, errBody ("Missing fields: " ++ String.intercalate ", "
          (DbServer.missingKeys data ["sender_id", "receiver_id", "message_text"]))⟩)) ∧
    (DbServer.missingKeys data ["sender_id", "receiver_id", "message_text"] = [] →
      DbServer.insert_message data s now =
        (⟨s.rows ++ [⟨s.nextId, getStr data "sender_id", getStr data "receiver_id",
            getStr data "message_text", now⟩], s.nextId + 1⟩,
         ⟨201, .obj [("message_id", .num s.nextId), ("status", .str "success")]⟩)) := by
  refine ⟨?_, ?_, ?_, ?_⟩
  · intro hf hfv
    have hsome : (Gateway.firstInvalid Gateway.REQUIRED_FIELDS data).isSome := by
      unfold Gateway.firstInvalid
      rw [List.find?_isSome]
      exact ⟨f, hf, by simp [hfv]⟩
    rcases ho : Gateway.firstInvalid Gateway.REQUIRED_FIELDS data with _ | g
    · rw [ho] at hsome; simp at hsome
    · refine ⟨g, rfl, ?_⟩
      unfold Gateway.send_message_step
      rw [ho]
  · intro hall
    have hnone : Gateway.firstInvalid Gateway.REQUIRED_FIELDS data = none := by
      unfold Gateway.firstInvalid
      rw [List.find?_eq_none]
      intro g hg
      simp [hall g hg]
    unfold Gateway.send_message_step
    rw [hnone]
  · intro h
    rcases hmk : DbServer.missingKeys data ["sender_id", "receiver_id", "message_text"]
      with _ | ⟨k, ks⟩
    · exact absurd hmk h
    · unfold DbServer.insert_message
      dsimp only
      rw [hmk]
      rfl
  · intro h
    unfold DbServer.insert_message
    dsimp only
    rw [h]
    rfl

/-- Witness for C8 (amended) at concrete requests. -/
theorem c8_witness :
    (∃ g, Gateway.firstInvalid Gateway.REQUIRED_FIELDS [("sender_id", JValue.str "s")] = some g ∧
      Gateway.send_message_step [("sender_id", JValue.str "s")] =
        .reject 400 (Gateway.reqErr g)) ∧
    DbServer.insert_message [("sender_id", JValue.str "a"), ("receiver_id", JValue.str "b"),
        ("message_text", JValue.str "")] initStore 0 =
      (⟨[⟨1, "a", "b", "", 0⟩], 2⟩,
       ⟨201, .obj [("message_id", .num 1), ("status", .str "success")]⟩) :=
  ⟨(c8_validation_amended [("sender_id", JValue.str "s")] initStore 0 "message_text").1
      (by decide) rfl,
   (c8_validation_amended [("sender_id", JValue.str "a"), ("receiver_id", JValue.str "b"),
        ("message_text", JValue.str "")] initStore 0 "message_text").2.2.2 rfl⟩

/-- The login handler on a well-formed payload reduces to the lookup on
the users table. -/
theorem login_user_payload (u p : String) (users : List UserRow) :
    DbServer.login_user [("user_id", JValue.str u), ("password", JValue.str p)] users =
      (match users.find? (fun r => decide (r.user_id = u)) with
       | none => ⟨200, .obj [("user_id", .bool false), ("password", .bool false)]⟩
       | some row => ⟨200, .obj [("user_id", .bool true),
                                 ("password", .bool (decide (row.password = p)))]⟩) := rfl

/-- C9: with both fields present, login for an absent `user_id` answers
`{"user_id": false, "password": false}` with status 200 (absence of the
user being exactly the failure of the lookup), and login for a present
user answers `{"user_id": true, "password": m}` with status 200, where
`m` holds exactly when the given password equals the stored one. -/
theorem c9_login_semantics (u p : String) (users : List UserRow) :
    (users.find? (fun r => decide (r.user_id = u)) = none ↔ ∀ r ∈ users, r.user_id ≠ u) ∧
    (users.find? (fun r => decide (r.user_id = u)) = none →
      DbServer.login_user [("user_id", JValue.str u), ("password", JValue.str p)] users =
        ⟨200, .obj [("user_id", .bool false), ("password", .bool false)]⟩) ∧
    (∀ row, users.find? (fun r => decide (r.user_id = u)) = some row →
      DbServer.login_user [("user_id", JValue.str u), ("password", JValue.str p)] users =
        ⟨200, .obj [("user_id", .bool true),
                    ("password", .bool (decide (row.password = p)))]⟩) := by
  refine ⟨?_, ?_, ?_⟩
  · rw [List.find?_eq_none]
    simp
  · intro h
    rw [login_user_payload, h]
  · intro row h
    rw [login_user_payload, h]

/-- Witness for C9 at a concrete users table. -/
theorem c9_witness :
    DbServer.login_user [("user_id", JValue.str "alice"), ("password", JValue.str "pw")]
        [⟨"alice", "pw"⟩] =
      ⟨200, .obj [("user_id", .bool true), ("password", .bool true)]⟩ ∧
    DbServer.login_user [("user_id", JValue.str "ghost"), ("password", JValue.str "pw")] [] =
      ⟨200, .obj [("user_id", .bool false), ("password", .bool false)]⟩ :=
  ⟨(c9_login_semantics "alice" "pw" [⟨"alice", "pw"⟩]).2.2 ⟨"alice", "pw"⟩ rfl,
   (c9_login_semantics "ghost" "pw" []).2.1 rfl⟩

/-- C10 counterexample: a field-valid edit request is forwarded to
`/db/edit`, a route the Data Service does not define, so the downstream
body is Flask's non-JSON HTML 404 page — and the Gateway answers 503
`{"error": "Database service unavailable"}` (the `JSONDecodeError` raised
by `response.json()` subclasses `RequestException` in requests 2.27+ and
is caught by the transport-failure clause), not 500
`{"error": "Internal Server Error"}`. -/
theorem c10_counterexample :
    (Gateway.edit_message [("message_id", JValue.num 1), ("sender_id", JValue.str "alice"),
        ("message_text", JValue.str "hi")] 0 ⟨[], initStore⟩).2 =
      ⟨503, errBody "Database service unavailable"⟩ ∧
    decide ((Gateway.edit_message [("message_id", JValue.num 1),
        ("sender_id", JValue.str "alice"),
        ("message_text", JValue.str "hi")] 0 ⟨[], initStore⟩).2.status = 500) = false :=
  ⟨rfl, rfl⟩

/-- C10 (amended): the Gateway relays the downstream body and status code
exactly when the downstream body parses as JSON (shown for the send
pipeline); when the downstream response is not JSON — as for every
field-valid edit request, whose forward targets the unrouted `/db/edit` —
the Gateway discards the downstream body and status and answers 503
`{"error": "Database service unavailable"}`, per the requests (2.27+)
exception hierarchy in which `JSONDecodeError` is a `RequestException`. -/
theorem c10_relay_amended (data : JsonObj) (st : DbState) (now : Nat) :
    (Gateway.firstInvalid Gateway.REQUIRED_FIELDS data = none →
      ∀ st2 r, DbServer.dbDispatch "POST" "/db/insert" data none none now st =
          (st2, DbServer.DownResp.json r) →
        Gateway.send_message data now st = (st2, r)) ∧
    (Gateway.firstInvalid ["message_id", "sender_id", "message_text"] data = none →
      Gateway.edit_message data now st =
        (st, ⟨503, errBody "Database service unavailable"⟩)) := by
  constructor
  · intro h st2 r hd
    unfold Gateway.send_message Gateway.runStep Gateway.send_message_step
    rw [h]
    dsimp only
    rw [hd]
    rfl
  · intro h
    have hmt : Gateway.gwTruthy data "message_id" = true := by
      have h2 : ∀ x ∈ ["message_id", "sender_id", "message_text"],
          ¬((!Gateway.gwTruthy data x) = true) := by
        unfold Gateway.firstInvalid at h
        exact List.find?_eq_none.mp h
      simpa using h2 "message_id" (by simp)
    unfold Gateway.edit_message Gateway.runStep Gateway.edit_message_step
    rw [h]
    dsimp only
    rw [hmt]
    rfl

/-- Witness for C10 (amended): a JSON downstream response relayed verbatim
and a non-JSON one replaced by the 503 error. -/
theorem c10_witness :
    Gateway.send_message [("sender_id", JValue.str "a"), ("receiver_id", JValue.str "b"),
        ("message_text", JValue.str "hi")] 0 ⟨[], initStore⟩ =
      (⟨[], ⟨[⟨1, "a", "b", "hi", 0⟩], 2⟩⟩,
       ⟨201, .obj [("message_id", .num 1), ("status", .str "success")]⟩) ∧
    Gateway.edit_message [("message_id", JValue.num 1), ("sender_id", JValue.str "alice"),
        ("message_text", JValue.str "hi")] 0 ⟨[], initStore⟩ =
      (⟨[], initStore⟩, ⟨503, errBody "Database service unavailable"⟩) :=
  ⟨(c10_relay_amended [("sender_id", JValue.str "a"), ("receiver_id", JValue.str "b"),
      ("message_text", JValue.str "hi")] ⟨[], initStore⟩ 0).1 rfl
      ⟨[], ⟨[⟨1, "a", "b", "hi", 0⟩], 2⟩⟩
      ⟨201, .obj [("message_id", .num 1), ("status", .str "success")]⟩ rfl,
   (c10_relay_amended [("message_id", JValue.num 1), ("sender_id", JValue.str "alice"),
      ("message_text", JValue.str "hi")] ⟨[], initStore⟩ 0).2 rfl⟩

/-- C1: evaluated at a field-valid edit request, the Gateway's edit
handler forwards a PUT to `/db/edit` — a (method, path) pair absent from
the Data Service's route table, which exposes `/db/update` instead — so
the dispatch produces Flask's non-JSON 404 page, the update handler's
response is never relayed, and the client receives the Gateway's generic
503 error rather than the 200 `{status, updated_id}` body. -/
theorem c1_edit_forward_targets_unrouted_endpoint :
    Gateway.edit_message_step [("message_id", JValue.num 1), ("sender_id", JValue.str "alice"),
        ("message_text", JValue.str "hi")] =
      Gateway.Step.forward "PUT" "/db/edit"
        [("message_id", JValue.num 1), ("sender_id", JValue.str "alice"),
         ("message_text", JValue.str "hi")] ∧
    DbServer.dbRoutes.contains ("PUT", "/db/edit") = false ∧
    DbServer.dbRoutes.contains ("PUT", "/db/update") = true ∧
    DbServer.dbDispatch "PUT" "/db/edit"
        [("message_id", JValue.num 1), ("sender_id", JValue.str "alice"),
         ("message_text", JValue.str "hi")] none none 0 ⟨[], initStore⟩ =
      (⟨[], initStore⟩, DbServer.DownResp.nonJson 404) ∧
    (Gateway.edit_message [("message_id", JValue.num 1), ("sender_id", JValue.str "alice"),
        ("message_text", JValue.str "hi")] 0 ⟨[], initStore⟩).2.status = 503 :=
  ⟨rfl, rfl, rfl, rfl, rfl⟩
